import Mathlib

/-!
Birdcall: a note-selectable peaking filter.

Shallow embedding of `Source/PluginProcessor.h` and `Source/PluginProcessor.cpp`.

Samples and filter parameters live in an arbitrary linearly ordered field `α`
(exact arithmetic); the transcendental functions of the C++ runtime come in
through the record `Libm`, so every definition below is executable as soon as
those functions are.
-/

namespace Birdcall

/-! ## Numeric primitives supplied by the platform -/

/-- Numeric primitives the program reaches through the C++ runtime and JUCE:
`std::pow`, `std::sqrt`, `std::sin`, `std::cos`, `MathConstants::pi` and the
platform dependent `JUCE_SNAP_TO_ZERO` that is applied to a filter's memory at
the end of a block. -/
structure Libm (α : Type) where
  pow : α → α → α
  sqrt : α → α
  sin : α → α
  cos : α → α
  pi : α
  snapToZero : α → α

/-! ## `PluginProcessor.h` -/

/-- The enumeration `Notes` (PluginProcessor.h, lines 13-28). -/
inductive Notes where
  | Bypass
  | C4
  | Db4
  | D4
  | Eb4
  | E4
  | F4
  | Gb4
  | G4
  | Ab4
  | A4
  | Bb4
  | B4
  deriving DecidableEq, Repr

/-- The integer value of each enumerator: an unscoped C++ enum counts from 0. -/
def Notes.toInt : Notes → Int
  | .Bypass => 0
  | .C4 => 1
  | .Db4 => 2
  | .D4 => 3
  | .Eb4 => 4
  | .E4 => 5
  | .F4 => 6
  | .Gb4 => 7
  | .G4 => 8
  | .Ab4 => 9
  | .A4 => 10
  | .Bb4 => 11
  | .B4 => 12

/-- The identifier of each enumerator as it is spelled in the header. -/
def Notes.name : Notes → String
  | .Bypass => "Bypass"
  | .C4 => "C4"
  | .Db4 => "Db4"
  | .D4 => "D4"
  | .Eb4 => "Eb4"
  | .E4 => "E4"
  | .F4 => "F4"
  | .Gb4 => "Gb4"
  | .G4 => "G4"
  | .Ab4 => "Ab4"
  | .A4 => "A4"
  | .Bb4 => "Bb4"
  | .B4 => "B4"

/-- All enumerators in declaration order. -/
def Notes.all : List Notes :=
  [.Bypass, .C4, .Db4, .D4, .Eb4, .E4, .F4, .Gb4, .G4, .Ab4, .A4, .Bb4, .B4]

/-- The conversion `static_cast<Notes>(i)` on the values that name an
enumerator. -/
def Notes.ofInt? (i : Int) : Option Notes :=
  Notes.all.find? (fun n => n.toInt == i)

/-- The struct `ChainSettings` (PluginProcessor.h, lines 30-35); `note` is a
plain `int`. -/
structure ChainSettings (α : Type) where
  peakGainInDecibels : α
  note : Int

/-! ## The parameter tree -/

/-- Modelled from the spec: the library type `juce::AudioParameterChoice`,
absent from the sources; section 2 describes a discrete control with a fixed
list of positions. It is kept as its identifier, its name, its labels and its
default index, the four constructor arguments. -/
structure AudioParameterChoice where
  parameterID : String
  parameterName : String
  choices : List String
  defaultItemIndex : Nat
  deriving DecidableEq, Repr

/-- The layout built by `createParameterLayout`
(PluginProcessor.cpp, lines 284-306): thirteen labels are appended to a string
array and one choice parameter "Note" with default index 0 is added. -/
def createParameterLayout : List AudioParameterChoice :=
  let stringArray : List String := []
  let stringArray := stringArray ++ ["Bypass"]
  let stringArray := stringArray ++ ["C4"]
  let stringArray := stringArray ++ ["Db4"]
  let stringArray := stringArray ++ ["D4"]
  let stringArray := stringArray ++ ["Eb4"]
  let stringArray := stringArray ++ ["E4"]
  let stringArray := stringArray ++ ["F4"]
  let stringArray := stringArray ++ ["Gb4"]
  let stringArray := stringArray ++ ["G4"]
  let stringArray := stringArray ++ ["Ab4"]
  let stringArray := stringArray ++ ["A4"]
  let stringArray := stringArray ++ ["Bb4"]
  let stringArray := stringArray ++ ["B4"]
  [⟨"Note", "Note", stringArray, 0⟩]

/-- Modelled from the spec: the library type
`juce::AudioProcessorValueTreeState`, absent from the sources; section 6 calls
it the externally owned, atomically readable current note selection. It is kept
as the raw value of the parameter "Note", which for a choice parameter is the
index of the chosen label. -/
structure AudioProcessorValueTreeState where
  Note : Int
  deriving DecidableEq, Repr

/-- Modelled from the spec: the state of a freshly built parameter tree
(library behaviour, absent from the sources): the parameter of the layout sits
at its default index. -/
def AudioProcessorValueTreeState.initial : AudioProcessorValueTreeState :=
  ⟨match createParameterLayout.find? (fun c => c.parameterID == "Note") with
    | some c => (c.defaultItemIndex : Int)
    | none => 0⟩

/-- The function `getChainSettings` (PluginProcessor.cpp, lines 275-282): a
default constructed `ChainSettings` whose `note` is overwritten with the raw
value of "Note" cast to `Notes`. -/
def getChainSettings {α : Type} [LinearOrderedField α]
    (apvts : AudioProcessorValueTreeState) : ChainSettings α :=
  let settings : ChainSettings α := ⟨0, Notes.Bypass.toInt⟩
  { settings with note := apvts.Note }

/-! ## The two `switch` statements -/

/-- The locals `peakFrequency`, `peakQuality`, `peakGain` that both
`prepareToPlay` and `processBlock` hand to the coefficient designer. -/
structure PeakParams (α : Type) where
  peakFrequency : α
  peakQuality : α
  peakGain : α

/-- What can stand in the body of the `switch (chainSettings.note)`: a `case`
label, one of the two assignments, or a `break`. -/
inductive SwitchItem (α : Type) where
  | case (label : Int)
  | setPeakGain (decibels : α)
  | setPeakFrequency (value : α)
  | brk

/-- Modelled from the spec: the helper `juce::Decibels::decibelsToGain`
(library code, absent from the sources), section 6: a level in dB is the
amplitude ratio 10^(dB/20). The library computes it as
`decibels > -100 ? std::pow (10, decibels * 0.05) : 0`, with -100 dB its
default floor. -/
def decibelsToGain {α : Type} [LinearOrderedField α] (L : Libm α) (decibels : α) : α :=
  if decibels > -100 then L.pow 10 (decibels * 0.05) else 0

/-- Straight-line execution inside a `switch` body: labels are skipped,
assignments are performed, `break` leaves the statement, and so does the end
of the body. Control falls from one `case` into the next. -/
def runItems {α : Type} [LinearOrderedField α] (L : Libm α) :
    List (SwitchItem α) → PeakParams α → PeakParams α
  | [], s => s
  | .case _ :: rest, s => runItems L rest s
  | .setPeakGain dB :: rest, s => runItems L rest { s with peakGain := decibelsToGain L dB }
  | .setPeakFrequency v :: rest, s => runItems L rest { s with peakFrequency := v }
  | .brk :: _, s => s

/-- Execution of a C++ `switch` without a `default` label: control jumps to the
`case` whose label equals the scrutinee and runs on from there; when no label
matches the body is skipped. -/
def execSwitch {α : Type} [LinearOrderedField α] (L : Libm α) (scrutinee : Int) :
    List (SwitchItem α) → PeakParams α → PeakParams α
  | [], s => s
  | .case label :: rest, s =>
      if scrutinee = label then runItems L rest s else execSwitch L scrutinee rest s
  | _ :: rest, s => execSwitch L scrutinee rest s

/-- Body of the `switch` in `prepareToPlay` (PluginProcessor.cpp, lines 112-141).
The constants are the decimal literals of the source, taken exactly; that the
source stores them in the `float` local `peakFrequency` is left to the
statements for which the rounding matters. -/
def prepareToPlaySwitch {α : Type} [LinearOrderedField α] : List (SwitchItem α) :=
  [ .case Notes.Bypass.toInt,
      .setPeakGain 0,
      .brk,
    .case Notes.C4.toInt,
      .setPeakFrequency 261.63,
    .case Notes.Db4.toInt,
      .setPeakFrequency 277.18,
    .case Notes.D4.toInt,
      .setPeakFrequency 293.66,
    .case Notes.Eb4.toInt,
      .setPeakFrequency 311.13,
    .case Notes.E4.toInt,
      .setPeakFrequency 329.63,
    .case Notes.F4.toInt,
      .setPeakFrequency 349.23,
    .case Notes.Gb4.toInt,
      .setPeakFrequency 369.99,
    .case Notes.G4.toInt,
      .setPeakFrequency 392.00,
    .case Notes.Ab4.toInt,
      .setPeakFrequency 415.30,
    .case Notes.A4.toInt,
      .setPeakFrequency 440.00,
    .case Notes.Bb4.toInt,
      .setPeakFrequency 466.16,
    .case Notes.B4.toInt,
      .setPeakFrequency 493.88 ]

/-- Body of the `switch` in `processBlock` (PluginProcessor.cpp, lines 201-230).
The constants are the decimal literals of the source, taken exactly; that the
source stores them in the `float` local `peakFrequency` is left to the
statements for which the rounding matters. -/
def processBlockSwitch {α : Type} [LinearOrderedField α] : List (SwitchItem α) :=
  [ .case Notes.Bypass.toInt,
      .setPeakGain 0,
      .brk,
    .case Notes.C4.toInt,
      .setPeakFrequency 261.63,
    .case Notes.Db4.toInt,
      .setPeakFrequency 277.18,
    .case Notes.D4.toInt,
      .setPeakFrequency 293.66,
    .case Notes.Eb4.toInt,
      .setPeakFrequency 311.13,
    .case Notes.E4.toInt,
      .setPeakFrequency 329.63,
    .case Notes.F4.toInt,
      .setPeakFrequency 349.23,
    .case Notes.Gb4.toInt,
      .setPeakFrequency 369.99,
    .case Notes.G4.toInt,
      .setPeakFrequency 392.00,
    .case Notes.Ab4.toInt,
      .setPeakFrequency 415.30,
    .case Notes.A4.toInt,
      .setPeakFrequency 440.00,
    .case Notes.Bb4.toInt,
      .setPeakFrequency 466.16,
    .case Notes.B4.toInt,
      .setPeakFrequency 493.88 ]

/-- The parameter resolver of `prepareToPlay` (PluginProcessor.cpp, lines
107-141): the three locals are initialised to 10, +24 dB and 20 Hz and the
`switch` then runs on `chainSettings.note`. -/
def prepareToPlayResolve {α : Type} [LinearOrderedField α] (L : Libm α)
    (chainSettings : ChainSettings α) : PeakParams α :=
  let peakQuality : α := 10
  let peakGain : α := decibelsToGain L 24
  let peakFrequency : α := 20
  execSwitch L chainSettings.note prepareToPlaySwitch ⟨peakFrequency, peakQuality, peakGain⟩

/-- The parameter resolver of `processBlock` (PluginProcessor.cpp, lines
196-230). -/
def processBlockResolve {α : Type} [LinearOrderedField α] (L : Libm α)
    (chainSettings : ChainSettings α) : PeakParams α :=
  let peakQuality : α := 10
  let peakGain : α := decibelsToGain L 24
  let peakFrequency : α := 20
  execSwitch L chainSettings.note processBlockSwitch ⟨peakFrequency, peakQuality, peakGain⟩

/-! ## The JUCE filter classes used by the processor

The classes `juce::dsp::IIR::Coefficients<float>` and
`juce::dsp::IIR::Filter<float>` belong to the JUCE library, whose sources are
not part of the repository. -/

/-- Modelled from the spec: the coefficient set of `juce::dsp::IIR::Coefficients`
(library code, absent from the sources). Section 3 describes it as the five
reals b0, b1, b2, a1, a2 normalised so that a0 = 1. -/
structure Coefficients (α : Type) where
  b0 : α
  b1 : α
  b2 : α
  a1 : α
  a2 : α

/-- Modelled from the spec: the six raw peaking-filter values
(b0, b1, b2, a0, a1, a2) before normalisation, the absent library routine
`juce::dsp::IIR::ArrayCoefficients<float>::makePeakFilter`. Section 4.2 gives
the formulas: omega0 = 2 pi f / fs, alpha = sin omega0 / (2 Q), and the RBJ
peaking expressions in A = sqrt gainLinear. The library floors the frequency at
2 Hz and the amplitude A at 0 before using them; both floors are kept. -/
def makePeakFilterArray {α : Type} [LinearOrderedField α] (L : Libm α)
    (sampleRate frequency Q gainFactor : α) : α × α × α × α × α × α :=
  let A := max 0 (L.sqrt gainFactor)
  let omega := (2 * L.pi * max frequency 2) / sampleRate
  let alpha := L.sin omega / (Q * 2)
  let c2 := -2 * L.cos omega
  let alphaTimesA := alpha * A
  let alphaOverA := alpha / A
  (1 + alphaTimesA, c2, 1 - alphaTimesA, 1 + alphaOverA, c2, 1 - alphaOverA)

/-- Modelled from the spec: normalisation of six raw values into a coefficient
set (the absent constructor of `juce::dsp::IIR::Coefficients`). Section 4.2:
"Normalize by dividing all coefficients by a0"; the library multiplies by the
inverse of a0 and uses 0 for that inverse when a0 is 0. -/
def Coefficients.ofArray {α : Type} [LinearOrderedField α]
    (values : α × α × α × α × α × α) : Coefficients α :=
  let (b0, b1, b2, a0, a1, a2) := values
  let a0Inv : α := if a0 ≠ 0 then 1 / a0 else 0
  ⟨b0 * a0Inv, b1 * a0Inv, b2 * a0Inv, a1 * a0Inv, a2 * a0Inv⟩

/-- Modelled from the spec: the coefficient designer
`juce::dsp::IIR::Coefficients<float>::makePeakFilter` (library code, absent
from the sources), section 4.2: the raw peaking values, normalised by a0. -/
def makePeakFilter {α : Type} [LinearOrderedField α] (L : Libm α)
    (sampleRate frequency Q gainFactor : α) : Coefficients α :=
  Coefficients.ofArray (makePeakFilterArray L sampleRate frequency Q gainFactor)

/-- Modelled from the spec: one channel filter `juce::dsp::IIR::Filter<float>`
(library code, absent from the sources), section 3 "Filter State": the active
coefficient set together with the delay-line memory, here the two state
variables `lv1`, `lv2` of a second-order section. -/
structure Filter (α : Type) where
  coefficients : Coefficients α
  lv1 : α
  lv2 : α

/-- Modelled from the spec: the coefficient set of a filter on which the
program has not yet installed its own (section 4.3, state "Uninitialized"); the
library's default constructed filter passes its input through. -/
def Coefficients.passThrough {α : Type} [LinearOrderedField α] : Coefficients α :=
  ⟨1, 0, 0, 0, 0⟩

/-- Modelled from the spec: `Filter::prepare`, section 4.3: "allocate/reset
internal delay-line state"; the coefficient set is kept. -/
def Filter.prepare {α : Type} [LinearOrderedField α] (f : Filter α) : Filter α :=
  { f with lv1 := 0, lv2 := 0 }

/-- Modelled from the spec: the per-sample loop of `Filter::process` (library
code, absent from the sources), section 4.3. The library runs the biquad
recurrence in transposed direct form II: `output = input * b0 + lv1`, then
`lv1 = input * b1 - output * a1 + lv2` and `lv2 = input * b2 - output * a2`,
sample after sample in index order. The result is the output samples and the
final `lv1`, `lv2`. -/
def Filter.run {α : Type} [LinearOrderedField α] (c : Coefficients α) :
    List α → α → α → List α × α × α
  | [], lv1, lv2 => ([], lv1, lv2)
  | input :: rest, lv1, lv2 =>
      let output := input * c.b0 + lv1
      let lv1' := input * c.b1 - output * c.a1 + lv2
      let lv2' := input * c.b2 - output * c.a2
      let r := Filter.run c rest lv1' lv2'
      (output :: r.1, r.2.1, r.2.2)

/-- Modelled from the spec: `Filter::process` on a replacing context (library
code, absent from the sources), section 4.3 `processBlock`: the samples are
replaced by the filtered ones and the memory reached after the last sample,
snapped to zero, is stored back in the filter. -/
def Filter.process {α : Type} [LinearOrderedField α] (L : Libm α) (f : Filter α)
    (samples : List α) : Filter α × List α :=
  let r := Filter.run f.coefficients samples f.lv1 f.lv2
  ({ f with lv1 := L.snapToZero r.2.1, lv2 := L.snapToZero r.2.2 }, r.1)

/-! ## Audio buffers -/

/-- Modelled from the spec: the library type `juce::AudioBuffer<float>`, absent
from the sources; section 6: one buffer per channel, each a sequence of
samples. -/
abbrev AudioBuffer (α : Type) := List (List α)

/-- Modelled from the spec: the library call
`buffer.clear (i, 0, buffer.getNumSamples())`, absent from the sources: every
sample of channel `i` becomes 0. -/
def AudioBuffer.clear {α : Type} [LinearOrderedField α] (buffer : AudioBuffer α) (i : Nat) :
    AudioBuffer α :=
  buffer.set i ((buffer.getD i []).map (fun _ => 0))

/-- Modelled from the spec: a chain processing a `ProcessContextReplacing` built
on `getSingleChannelBlock (channel)` (library code, absent from the sources);
section 6: the filtered samples are written back into the same channel of the
buffer. -/
def processReplacing {α : Type} [LinearOrderedField α] (L : Libm α) (f : Filter α)
    (buffer : AudioBuffer α) (channel : Nat) : Filter α × AudioBuffer α :=
  let r := Filter.process L f (buffer.getD channel [])
  (r.1, buffer.set channel r.2)

/-! ## `BirdcallAudioProcessor` -/

/-- The state of a `BirdcallAudioProcessor` that the audio path reads or writes:
the parameter tree, what `getSampleRate()`, `getTotalNumInputChannels()` and
`getTotalNumOutputChannels()` return, and the two mono chains
(PluginProcessor.h, lines 86-92). -/
structure BirdcallAudioProcessor (α : Type) where
  apvts : AudioProcessorValueTreeState
  sampleRate : α
  totalNumInputChannels : Nat
  totalNumOutputChannels : Nat
  leftChain : Filter α
  rightChain : Filter α

/-- The argument list of a call
`makePeakFilter (sampleRate, peakFrequency, peakQuality, peakGain)`. -/
structure PeakFilterCall (α : Type) where
  sampleRate : α
  frequency : α
  Q : α
  gainFactor : α

/-- Perform the call: design the coefficient set for these arguments. -/
def PeakFilterCall.design {α : Type} [LinearOrderedField α] (L : Libm α)
    (c : PeakFilterCall α) : Coefficients α :=
  makePeakFilter L c.sampleRate c.frequency c.Q c.gainFactor

/-- The arguments `prepareToPlay` passes to `makePeakFilter`
(PluginProcessor.cpp, lines 107-143): the sample rate it was called with and
the three locals after the `switch`. -/
def prepareToPlayCall {α : Type} [LinearOrderedField α] (L : Libm α)
    (p : BirdcallAudioProcessor α) (sampleRate : α) : PeakFilterCall α :=
  let chainSettings : ChainSettings α := getChainSettings p.apvts
  let r := prepareToPlayResolve L chainSettings
  ⟨sampleRate, r.peakFrequency, r.peakQuality, r.peakGain⟩

/-- The method `prepareToPlay` (PluginProcessor.cpp, lines 94-147): both chains
are prepared, the note is resolved, the peak coefficients are designed for the
sample rate passed in and copied into the left and into the right filter. -/
def prepareToPlay {α : Type} [LinearOrderedField α] (L : Libm α)
    (p : BirdcallAudioProcessor α) (sampleRate : α) (_samplesPerBlock : Nat) :
    BirdcallAudioProcessor α :=
  let leftChain := p.leftChain.prepare
  let rightChain := p.rightChain.prepare
  let peakCoefficients := (prepareToPlayCall L p sampleRate).design L
  { p with
    leftChain := { leftChain with coefficients := peakCoefficients }
    rightChain := { rightChain with coefficients := peakCoefficients } }

/-- The first loop of `processBlock` (PluginProcessor.cpp, lines 193-194):
output channels that have no input are cleared. -/
def clearExtraOutputs {α : Type} [LinearOrderedField α] (p : BirdcallAudioProcessor α)
    (buffer : AudioBuffer α) : AudioBuffer α :=
  (List.range' p.totalNumInputChannels
    (p.totalNumOutputChannels - p.totalNumInputChannels)).foldl AudioBuffer.clear buffer

/-- The arguments `processBlock` passes to `makePeakFilter`
(PluginProcessor.cpp, lines 196-232): `getSampleRate()` and the three locals
after the `switch`. -/
def processBlockCall {α : Type} [LinearOrderedField α] (L : Libm α)
    (p : BirdcallAudioProcessor α) : PeakFilterCall α :=
  let chainSettings : ChainSettings α := getChainSettings p.apvts
  let r := processBlockResolve L chainSettings
  ⟨p.sampleRate, r.peakFrequency, r.peakQuality, r.peakGain⟩

/-- The coefficient update of `processBlock` (PluginProcessor.cpp, lines
196-235): the note is resolved, the peak coefficients are designed for
`getSampleRate()` and copied into the coefficient object of the left and of
the right filter. -/
def updateCoefficients {α : Type} [LinearOrderedField α] (L : Libm α)
    (p : BirdcallAudioProcessor α) : BirdcallAudioProcessor α :=
  let peakCoefficients := (processBlockCall L p).design L
  { p with
    leftChain := { p.leftChain with coefficients := peakCoefficients }
    rightChain := { p.rightChain with coefficients := peakCoefficients } }

/-- The sample processing of `processBlock` (PluginProcessor.cpp, lines
237-246): `leftBlock` is `getSingleChannelBlock(0)` and `rightBlock` is
`getSingleChannelBlock(0)` as well; the left chain processes the first in
place, then the right chain processes the second in place. -/
def processChains {α : Type} [LinearOrderedField α] (L : Libm α)
    (p : BirdcallAudioProcessor α) (buffer : AudioBuffer α) :
    BirdcallAudioProcessor α × AudioBuffer α :=
  let leftBlock : Nat := 0
  let rightBlock : Nat := 0
  let l := processReplacing L p.leftChain buffer leftBlock
  let r := processReplacing L p.rightChain l.2 rightBlock
  ({ p with leftChain := l.1, rightChain := r.1 }, r.2)

/-- The method `processBlock` (PluginProcessor.cpp, lines 181-247). -/
def processBlock {α : Type} [LinearOrderedField α] (L : Libm α)
    (p : BirdcallAudioProcessor α) (buffer : AudioBuffer α) :
    BirdcallAudioProcessor α × AudioBuffer α :=
  let buffer := clearExtraOutputs p buffer
  let p := updateCoefficients L p
  processChains L p buffer

/-! ## The `switch` statements, evaluated -/

section Resolver

variable {α : Type} [LinearOrderedField α]

theorem decibelsToGain_24 (L : Libm α) : decibelsToGain L 24 = L.pow 10 (24 / 20) := by
  unfold decibelsToGain
  rw [if_pos (by norm_num)]
  congr 1
  norm_num

theorem decibelsToGain_0 (L : Libm α) : decibelsToGain L 0 = L.pow 10 0 := by
  unfold decibelsToGain
  rw [if_pos (by norm_num)]
  congr 1
  norm_num

/-- The `switch` of `processBlock` on `Bypass`. -/
theorem processBlockResolve_bypass (L : Libm α) (g : α) :
    processBlockResolve L ⟨g, 0⟩ = ⟨20, 10, L.pow 10 0⟩ := by
  simp [processBlockResolve, processBlockSwitch, execSwitch, runItems, Notes.toInt,
    decibelsToGain_0]

/-- The `switch` of `processBlock` on a value from `C4` to `B4`: control falls
through to the last assignment. -/
theorem processBlockResolve_pitched (L : Libm α) (g : α) (note : Int)
    (h1 : 1 ≤ note) (h12 : note ≤ 12) :
    processBlockResolve L ⟨g, note⟩ = ⟨493.88, 10, L.pow 10 (24 / 20)⟩ := by
  interval_cases note <;>
    simp [processBlockResolve, processBlockSwitch, execSwitch, runItems, Notes.toInt,
      decibelsToGain_24]

/-- The `switch` of `processBlock` on a value that no label names: the body is
skipped. -/
theorem processBlockResolve_other (L : Libm α) (g : α) (note : Int)
    (h : note < 0 ∨ 12 < note) :
    processBlockResolve L ⟨g, note⟩ = ⟨20, 10, L.pow 10 (24 / 20)⟩ := by
  have e0 : note ≠ 0 := by omega
  have e1 : note ≠ 1 := by omega
  have e2 : note ≠ 2 := by omega
  have e3 : note ≠ 3 := by omega
  have e4 : note ≠ 4 := by omega
  have e5 : note ≠ 5 := by omega
  have e6 : note ≠ 6 := by omega
  have e7 : note ≠ 7 := by omega
  have e8 : note ≠ 8 := by omega
  have e9 : note ≠ 9 := by omega
  have e10 : note ≠ 10 := by omega
  have e11 : note ≠ 11 := by omega
  have e12 : note ≠ 12 := by omega
  simp [processBlockResolve, processBlockSwitch, execSwitch, Notes.toInt,
    decibelsToGain_24, e0, e1, e2, e3, e4, e5, e6, e7, e8, e9, e10, e11, e12]

/-- The two `switch` bodies are the same list of labels and statements. -/
theorem prepareToPlaySwitch_eq : (prepareToPlaySwitch : List (SwitchItem α)) = processBlockSwitch :=
  rfl

/-- The resolver of `prepareToPlay` computes what the resolver of `processBlock`
computes. -/
theorem prepareToPlayResolve_eq (L : Libm α) (s : ChainSettings α) :
    prepareToPlayResolve L s = processBlockResolve L s := by
  unfold prepareToPlayResolve processBlockResolve
  rw [prepareToPlaySwitch_eq]

end Resolver

/-! ## The parameter resolver -/

section ResolverClaims

variable {α : Type} [LinearOrderedField α]

/-- C1 (evaluation of the code): for every enumerator of `Notes` written into
the parameter tree, the frequency that `prepareToPlay` and `processBlock` pass
to `makePeakFilter` is 20 Hz for `Bypass` and 493.88 Hz, the frequency of B4,
for each of the twelve pitched notes, because every `case` from `C4` on falls
through to the last assignment. For `C4` the frequency passed is therefore not
261.63 Hz, and `C4` and `Db4` are passed the same frequency. -/
theorem pitched_notes_fall_through_to_B4 (L : Libm α) (p : BirdcallAudioProcessor α)
    (sampleRate : α) (n : Notes) :
    (prepareToPlayCall L { p with apvts := ⟨n.toInt⟩ } sampleRate).frequency
        = (if n = Notes.Bypass then 20 else 493.88)
      ∧ (processBlockCall L { p with apvts := ⟨n.toInt⟩ }).frequency
        = (if n = Notes.Bypass then 20 else 493.88)
      ∧ (processBlockCall L { p with apvts := ⟨Notes.C4.toInt⟩ }).frequency ≠ 261.63
      ∧ (processBlockCall L { p with apvts := ⟨Notes.C4.toInt⟩ }).frequency
        = (processBlockCall L { p with apvts := ⟨Notes.Db4.toInt⟩ }).frequency := by
  refine ⟨?_, ?_, ?_, ?_⟩
  · cases n <;>
      simp [prepareToPlayCall, getChainSettings, prepareToPlayResolve_eq, Notes.toInt,
        processBlockResolve_bypass, processBlockResolve_pitched]
  · cases n <;>
      simp [processBlockCall, getChainSettings, Notes.toInt,
        processBlockResolve_bypass, processBlockResolve_pitched]
  · simp only [processBlockCall, getChainSettings, Notes.toInt,
      processBlockResolve_pitched L _ 1 (by norm_num) (by norm_num)]
    norm_num
  · simp only [processBlockCall, getChainSettings, Notes.toInt,
      processBlockResolve_pitched L _ 1 (by norm_num) (by norm_num),
      processBlockResolve_pitched L _ 2 (by norm_num) (by norm_num)]

/-- C3: for every enumerator of `Notes`, both resolvers yield Q = 10, and a
linear gain of 1 for `Bypass` and of 10^(24/20) for each of the twelve pitched
notes, given that the platform's power function returns 1 for the exponent 0. -/
theorem resolver_quality_and_gain (L : Libm α) (hpow : L.pow 10 0 = 1) (g : α) (n : Notes) :
    (prepareToPlayResolve L ⟨g, n.toInt⟩).peakQuality = 10
      ∧ (processBlockResolve L ⟨g, n.toInt⟩).peakQuality = 10
      ∧ (prepareToPlayResolve L ⟨g, n.toInt⟩).peakGain
          = (if n = Notes.Bypass then 1 else L.pow 10 (24 / 20))
      ∧ (processBlockResolve L ⟨g, n.toInt⟩).peakGain
          = (if n = Notes.Bypass then 1 else L.pow 10 (24 / 20)) := by
  rw [prepareToPlayResolve_eq]
  cases n <;>
    simp [Notes.toInt, processBlockResolve_bypass, processBlockResolve_pitched, hpow]

/-- C3, at the real numbers with the real power function and the note A4. -/
theorem resolver_quality_and_gain_witness :
    ((10 : ℝ) ^ (0 : ℝ) = 1)
      ∧ (processBlockResolve
          (⟨fun x y => x ^ y, Real.sqrt, Real.sin, Real.cos, Real.pi, id⟩ : Libm ℝ)
          ⟨0, Notes.A4.toInt⟩).peakQuality = 10
      ∧ (processBlockResolve
          (⟨fun x y => x ^ y, Real.sqrt, Real.sin, Real.cos, Real.pi, id⟩ : Libm ℝ)
          ⟨0, Notes.A4.toInt⟩).peakGain = (10 : ℝ) ^ ((24 : ℝ) / 20) :=
  ⟨Real.rpow_zero 10,
    (resolver_quality_and_gain
      (⟨fun x y => x ^ y, Real.sqrt, Real.sin, Real.cos, Real.pi, id⟩ : Libm ℝ)
      (Real.rpow_zero 10) 0 Notes.A4).2.1,
    by
      have h := (resolver_quality_and_gain
        (⟨fun x y => x ^ y, Real.sqrt, Real.sin, Real.cos, Real.pi, id⟩ : Libm ℝ)
        (Real.rpow_zero 10) 0 Notes.A4).2.2.2
      simpa using h⟩

/-- C4 (as stated, refuted): over the real numbers the note value 13, which no
enumerator has, does not resolve to the parameters of `Bypass`: its gain is
10^(24/20), not 1. -/
theorem unrecognised_note_is_not_bypass :
    processBlockResolve
        (⟨fun x y => x ^ y, Real.sqrt, Real.sin, Real.cos, Real.pi, id⟩ : Libm ℝ) ⟨0, 13⟩
      ≠ processBlockResolve
        (⟨fun x y => x ^ y, Real.sqrt, Real.sin, Real.cos, Real.pi, id⟩ : Libm ℝ) ⟨0, 0⟩
    ∧ (processBlockResolve
        (⟨fun x y => x ^ y, Real.sqrt, Real.sin, Real.cos, Real.pi, id⟩ : Libm ℝ)
        ⟨0, 13⟩).peakGain ≠ 1 := by
  have hg : (1 : ℝ) < (10 : ℝ) ^ ((24 : ℝ) / 20) :=
    Real.one_lt_rpow (by norm_num) (by norm_num)
  rw [processBlockResolve_other _ _ 13 (by norm_num), processBlockResolve_bypass]
  constructor
  · intro h
    have h2 := congrArg PeakParams.peakGain h
    simp only [Real.rpow_zero] at h2
    linarith
  · exact ne_of_gt hg

/-- C4 (amended): for every integer note value below 0 or above 12 both
resolvers keep the initial values of the three locals: frequency 20 Hz and
Q 10, as for `Bypass`, but the gain 10^(24/20) of a pitched note. -/
theorem unrecognised_note_keeps_initial_values (L : Libm α) (g : α) (note : Int)
    (h : note < 0 ∨ 12 < note) :
    prepareToPlayResolve L ⟨g, note⟩ = ⟨20, 10, L.pow 10 (24 / 20)⟩
      ∧ processBlockResolve L ⟨g, note⟩ = ⟨20, 10, L.pow 10 (24 / 20)⟩ := by
  rw [prepareToPlayResolve_eq]
  exact ⟨processBlockResolve_other L g note h, processBlockResolve_other L g note h⟩

/-- C4 (amended), at the real numbers and the note value 13. -/
theorem unrecognised_note_keeps_initial_values_witness :
    ((13 : Int) < 0 ∨ 12 < (13 : Int))
      ∧ processBlockResolve
          (⟨fun x y => x ^ y, Real.sqrt, Real.sin, Real.cos, Real.pi, id⟩ : Libm ℝ) ⟨0, 13⟩
        = ⟨20, 10, (10 : ℝ) ^ ((24 : ℝ) / 20)⟩ :=
  ⟨Or.inr (by decide),
    (unrecognised_note_keeps_initial_values
      (⟨fun x y => x ^ y, Real.sqrt, Real.sin, Real.cos, Real.pi, id⟩ : Libm ℝ)
      0 13 (Or.inr (by decide))).2⟩

end ResolverClaims

/-! ## The note parameter -/

/-- C7: the layout holds one choice parameter "Note" with 13 choices and
default index 0; the label at the index of every enumerator of `Notes` is that
enumerator's name; for every index from 0 to 12 `getChainSettings` yields the
value of the enumerator whose name is the label at that index; and on the
initial parameter state it yields `Bypass`. -/
theorem note_parameter_matches_enum {α : Type} [LinearOrderedField α] :
    createParameterLayout.map (fun c => (c.parameterID, c.choices.length, c.defaultItemIndex))
        = [("Note", 13, 0)]
      ∧ createParameterLayout.map (fun c => c.choices) = [Notes.all.map Notes.name]
      ∧ (∀ n : Notes,
          createParameterLayout.map (fun c => c.choices[n.toInt.toNat]?) = [some n.name])
      ∧ (∀ i : Fin 13, ∃ n : Notes,
          Notes.ofInt? (getChainSettings ⟨(i.val : Int)⟩ : ChainSettings α).note = some n
            ∧ n.toInt = (i.val : Int)
            ∧ createParameterLayout.map (fun c => c.choices[i.val]?) = [some n.name])
      ∧ Notes.ofInt? (getChainSettings AudioProcessorValueTreeState.initial
          : ChainSettings α).note = some Notes.Bypass := by
  have hnote : ∀ a : AudioProcessorValueTreeState,
      (getChainSettings a : ChainSettings α).note = a.Note := fun _ => rfl
  simp only [hnote]
  refine ⟨by decide, by decide, ?_, ?_, by decide⟩
  · intro n
    cases n <;> decide
  · intro i
    fin_cases i
    · exact ⟨Notes.Bypass, by decide, by decide, by decide⟩
    · exact ⟨Notes.C4, by decide, by decide, by decide⟩
    · exact ⟨Notes.Db4, by decide, by decide, by decide⟩
    · exact ⟨Notes.D4, by decide, by decide, by decide⟩
    · exact ⟨Notes.Eb4, by decide, by decide, by decide⟩
    · exact ⟨Notes.E4, by decide, by decide, by decide⟩
    · exact ⟨Notes.F4, by decide, by decide, by decide⟩
    · exact ⟨Notes.Gb4, by decide, by decide, by decide⟩
    · exact ⟨Notes.G4, by decide, by decide, by decide⟩
    · exact ⟨Notes.Ab4, by decide, by decide, by decide⟩
    · exact ⟨Notes.A4, by decide, by decide, by decide⟩
    · exact ⟨Notes.Bb4, by decide, by decide, by decide⟩
    · exact ⟨Notes.B4, by decide, by decide, by decide⟩

/-! ## Coefficients and filter memory -/

section Chains

variable {α : Type} [LinearOrderedField α]

/-- Both resolvers leave `peakQuality` at 10 for every integer note value. -/
theorem processBlockResolve_quality (L : Libm α) (s : ChainSettings α) :
    (processBlockResolve L s).peakQuality = 10 := by
  obtain ⟨g, note⟩ := s
  by_cases h0 : note = 0
  · subst h0
    rw [processBlockResolve_bypass]
  · by_cases h : 1 ≤ note ∧ note ≤ 12
    · rw [processBlockResolve_pitched L g note h.1 h.2]
    · rw [processBlockResolve_other L g note (by omega)]

/-- C8: after `prepareToPlay` and after `processBlock` the left and the right
filter hold one and the same coefficient set: `makePeakFilter` of the sample
rate of that call, the frequency and gain resolved in that call from the note
in the parameter tree, and Q = 10. Replacing the filters the processor held
before the call by any others does not change the coefficients it holds
afterwards. -/
theorem both_filters_hold_designed_coefficients (L : Libm α) (p : BirdcallAudioProcessor α)
    (sampleRate : α) (samplesPerBlock : Nat) (buffer : AudioBuffer α) (l r : Filter α) :
    (prepareToPlay L p sampleRate samplesPerBlock).leftChain.coefficients
        = makePeakFilter L sampleRate
            (prepareToPlayResolve L (getChainSettings p.apvts)).peakFrequency 10
            (prepareToPlayResolve L (getChainSettings p.apvts)).peakGain
      ∧ (prepareToPlay L p sampleRate samplesPerBlock).rightChain.coefficients
        = (prepareToPlay L p sampleRate samplesPerBlock).leftChain.coefficients
      ∧ (processBlock L p buffer).1.leftChain.coefficients
        = makePeakFilter L p.sampleRate
            (processBlockResolve L (getChainSettings p.apvts)).peakFrequency 10
            (processBlockResolve L (getChainSettings p.apvts)).peakGain
      ∧ (processBlock L p buffer).1.rightChain.coefficients
        = (processBlock L p buffer).1.leftChain.coefficients
      ∧ (prepareToPlay L { p with leftChain := l, rightChain := r } sampleRate
            samplesPerBlock).leftChain.coefficients
        = (prepareToPlay L p sampleRate samplesPerBlock).leftChain.coefficients
      ∧ (processBlock L { p with leftChain := l, rightChain := r } buffer).1.leftChain.coefficients
        = (processBlock L p buffer).1.leftChain.coefficients := by
  refine ⟨?_, rfl, ?_, rfl, rfl, rfl⟩
  · show makePeakFilter L sampleRate _ (prepareToPlayResolve L _).peakQuality _ = _
    rw [prepareToPlayResolve_eq, processBlockResolve_quality]
    rfl
  · show makePeakFilter L p.sampleRate _ (processBlockResolve L _).peakQuality _ = _
    rw [processBlockResolve_quality]
    rfl

/-- C9: the coefficient update at the start of `processBlock` leaves the memory
of the left and of the right filter as it found it, for every processor state;
`processBlock` then runs the two chains on the updated processor, so the
samples of a block are computed with the new coefficient set from the memory
`lv1`, `lv2` that the filters held when the block arrived. -/
theorem coefficient_update_keeps_memory (L : Libm α) (p : BirdcallAudioProcessor α)
    (buffer : AudioBuffer α) (ch0 ch1 : List α) :
    (updateCoefficients L p).leftChain.lv1 = p.leftChain.lv1
      ∧ (updateCoefficients L p).leftChain.lv2 = p.leftChain.lv2
      ∧ (updateCoefficients L p).rightChain.lv1 = p.rightChain.lv1
      ∧ (updateCoefficients L p).rightChain.lv2 = p.rightChain.lv2
      ∧ processBlock L p buffer
          = processChains L (updateCoefficients L p) (clearExtraOutputs p buffer)
      ∧ (processChains L (updateCoefficients L p) [ch0, ch1]).2
          = [(Filter.run ((processBlockCall L p).design L)
                (Filter.run ((processBlockCall L p).design L) ch0
                  p.leftChain.lv1 p.leftChain.lv2).1
                p.rightChain.lv1 p.rightChain.lv2).1, ch1] := by
  refine ⟨rfl, rfl, rfl, rfl, rfl, ?_⟩
  simp [processChains, processReplacing, Filter.process, updateCoefficients]

/-- C10: for every integer note value the resolver of `prepareToPlay` and the
resolver of `processBlock` return the same frequency, Q and gain; called with
the processor's current sample rate, `prepareToPlay` passes `makePeakFilter`
the arguments `processBlock` passes it, and the coefficients the first block
installs in the left and in the right filter are those `prepareToPlay`
installed. -/
theorem resolver_copies_agree (L : Libm α) (g : α) (note : Int)
    (p : BirdcallAudioProcessor α) (samplesPerBlock : Nat) (buffer : AudioBuffer α) :
    prepareToPlayResolve L ⟨g, note⟩ = processBlockResolve L ⟨g, note⟩
      ∧ prepareToPlayCall L p p.sampleRate = processBlockCall L p
      ∧ (processBlock L (prepareToPlay L p p.sampleRate samplesPerBlock) buffer).1.leftChain.coefficients
        = (prepareToPlay L p p.sampleRate samplesPerBlock).leftChain.coefficients
      ∧ (processBlock L (prepareToPlay L p p.sampleRate samplesPerBlock) buffer).1.rightChain.coefficients
        = (prepareToPlay L p p.sampleRate samplesPerBlock).rightChain.coefficients := by
  have hcall : prepareToPlayCall L p p.sampleRate = processBlockCall L p := by
    simp only [prepareToPlayCall, processBlockCall, prepareToPlayResolve_eq]
  refine ⟨prepareToPlayResolve_eq L _, hcall, ?_, ?_⟩
  · show (processBlockCall L (prepareToPlay L p p.sampleRate samplesPerBlock)).design L
        = (prepareToPlayCall L p p.sampleRate).design L
    rw [hcall]
    rfl
  · show (processBlockCall L (prepareToPlay L p p.sampleRate samplesPerBlock)).design L
        = (prepareToPlayCall L p p.sampleRate).design L
    rw [hcall]
    rfl

end Chains

/-! ## Processing a block -/

section Processing

variable {α : Type} [LinearOrderedField α]

/-- With as many inputs as outputs no channel is cleared. -/
theorem clearExtraOutputs_of_le (p : BirdcallAudioProcessor α) (buffer : AudioBuffer α)
    (h : p.totalNumOutputChannels ≤ p.totalNumInputChannels) :
    clearExtraOutputs p buffer = buffer := by
  unfold clearExtraOutputs
  rw [Nat.sub_eq_zero_of_le h]
  rfl

/-- What `processBlock` writes into a two-channel buffer: channel 0 is run
through the left filter and the result through the right filter; channel 1 is
not touched. -/
theorem processBlock_stereo (L : Libm α) (p : BirdcallAudioProcessor α) (ch0 ch1 : List α)
    (hin : p.totalNumInputChannels = 2) (hout : p.totalNumOutputChannels = 2) :
    (processBlock L p [ch0, ch1]).2
      = [(Filter.process L (updateCoefficients L p).rightChain
            (Filter.process L (updateCoefficients L p).leftChain ch0).2).2, ch1] := by
  unfold processBlock
  rw [clearExtraOutputs_of_le p _ (by omega)]
  simp [processChains, processReplacing]

/-- A coefficient set with b0 = 1, b1 = a1 and b2 = a2 run from silent memory
returns its input and stays silent. -/
theorem Filter.run_of_unity (c : Coefficients α) (h0 : c.b0 = 1) (h1 : c.b1 = c.a1)
    (h2 : c.b2 = c.a2) (xs : List α) : Filter.run c xs 0 0 = (xs, 0, 0) := by
  induction xs with
  | nil => rfl
  | cons x xs ih =>
    have e1 : x * c.b1 - (x * c.b0 + 0) * c.a1 + 0 = 0 := by rw [h0, h1]; ring
    have e2 : x * c.b2 - (x * c.b0 + 0) * c.a2 = 0 := by rw [h0, h2]; ring
    simp only [Filter.run, e1, e2, ih]
    rw [h0]
    simp

/-- The peaking design at gain 1 and Q = 10: a0 is not 0 and the normalised
numerator equals the normalised denominator. -/
theorem makePeakFilter_gain_one (L : Libm α) (hsqrt : L.sqrt 1 = 1)
    (hsin : ∀ x, |L.sin x| ≤ 1) (sampleRate frequency : α) :
    (makePeakFilterArray L sampleRate frequency 10 1).2.2.2.1 ≠ 0
      ∧ (makePeakFilter L sampleRate frequency 10 1).b0 = 1
      ∧ (makePeakFilter L sampleRate frequency 10 1).b1
          = (makePeakFilter L sampleRate frequency 10 1).a1
      ∧ (makePeakFilter L sampleRate frequency 10 1).b2
          = (makePeakFilter L sampleRate frequency 10 1).a2 := by
  have hmax : max (0 : α) 1 = 1 := max_eq_right zero_le_one
  have hs := abs_le.mp (hsin (2 * L.pi * max frequency 2 / sampleRate))
  have ha0 : (1 : α) + L.sin (2 * L.pi * max frequency 2 / sampleRate) / (10 * 2) / 1 ≠ 0 := by
    have : (0 : α) < 1 + L.sin (2 * L.pi * max frequency 2 / sampleRate) / (10 * 2) / 1 := by
      rw [div_one]
      have h20 : (-1 : α) / (10 * 2) ≤ L.sin (2 * L.pi * max frequency 2 / sampleRate) / (10 * 2) :=
        div_le_div_of_nonneg_right hs.1 (by norm_num)
      have : (-1 : α) / (10 * 2) = -(1 / 20) := by norm_num
      linarith [show (0 : α) < 1 / 20 by norm_num, show (1 : α) / 20 < 1 by norm_num]
    exact ne_of_gt this
  refine ⟨?_, ?_, ?_, ?_⟩
  · simpa [makePeakFilterArray, hsqrt, hmax] using ha0
  · simp only [makePeakFilter, makePeakFilterArray, Coefficients.ofArray, hsqrt, hmax, mul_one]
    rw [if_pos ha0]
    simp only [div_one] at ha0 ⊢
    rw [mul_one_div, div_self ha0]
  · simp only [makePeakFilter, makePeakFilterArray, Coefficients.ofArray, hsqrt, hmax, mul_one]
  · simp only [makePeakFilter, makePeakFilterArray, Coefficients.ofArray, hsqrt, hmax, mul_one,
      div_one]

/-- The peaking design with an amplitude above 1 at a frequency where the sine
is positive boosts: its normalised b0 exceeds 1. -/
theorem makePeakFilter_b0_gt_one (L : Libm α) (sampleRate frequency Q gainFactor : α)
    (hA : 1 < L.sqrt gainFactor) (hQ : 0 < Q)
    (hsin : 0 < L.sin (2 * L.pi * max frequency 2 / sampleRate)) :
    1 < (makePeakFilter L sampleRate frequency Q gainFactor).b0 := by
  have hA0 : (0 : α) < L.sqrt gainFactor := lt_trans zero_lt_one hA
  have hmax : max 0 (L.sqrt gainFactor) = L.sqrt gainFactor := max_eq_right hA0.le
  have hal : 0 < L.sin (2 * L.pi * max frequency 2 / sampleRate) / (Q * 2) :=
    div_pos hsin (by linarith)
  have hlow : L.sin (2 * L.pi * max frequency 2 / sampleRate) / (Q * 2) / L.sqrt gainFactor
      < L.sin (2 * L.pi * max frequency 2 / sampleRate) / (Q * 2) :=
    div_lt_self hal hA
  have hhigh : L.sin (2 * L.pi * max frequency 2 / sampleRate) / (Q * 2)
      < L.sin (2 * L.pi * max frequency 2 / sampleRate) / (Q * 2) * L.sqrt gainFactor :=
    lt_mul_of_one_lt_right hal hA
  have hpos : 0 < 1
      + L.sin (2 * L.pi * max frequency 2 / sampleRate) / (Q * 2) / L.sqrt gainFactor := by
    have := div_pos hal hA0
    linarith
  simp only [makePeakFilter, makePeakFilterArray, Coefficients.ofArray, hmax]
  rw [if_pos (ne_of_gt hpos), mul_one_div, lt_div_iff₀ hpos]
  linarith

/-- The coefficient set `processBlock` designs for a note value from 1 to 12. -/
theorem processBlockCall_design_pitched (L : Libm α) (p : BirdcallAudioProcessor α)
    (h1 : 1 ≤ p.apvts.Note) (h12 : p.apvts.Note ≤ 12) :
    (processBlockCall L p).design L
      = makePeakFilter L p.sampleRate 493.88 10 (L.pow 10 (24 / 20)) := by
  simp only [processBlockCall, PeakFilterCall.design, getChainSettings,
    processBlockResolve_pitched L _ _ h1 h12]

/-- A filter with silent memory turns a block of one sample `x` into `x * b0`. -/
theorem Filter.process_singleton (L : Libm α) (f : Filter α) (x : α) (h : f.lv1 = 0) :
    (Filter.process L f [x]).2 = [x * f.coefficients.b0] := by
  simp [Filter.process, Filter.run, h]

/-- A pitched note, a stereo layout and silent filter memory, on the block whose
two channels each hold the sample 1: channel 0 comes back as b0 * b0, channel 1
as 1, while either filter alone maps the sample 1 to b0. -/
theorem processBlock_unit_block_pitched (L : Libm α) (p : BirdcallAudioProcessor α)
    (h1 : 1 ≤ p.apvts.Note) (h12 : p.apvts.Note ≤ 12)
    (hin : p.totalNumInputChannels = 2) (hout : p.totalNumOutputChannels = 2)
    (hl : p.leftChain.lv1 = 0) (hr : p.rightChain.lv1 = 0) :
    (processBlock L p [[1], [1]]).2
        = [[(makePeakFilter L p.sampleRate 493.88 10 (L.pow 10 (24 / 20))).b0
              * (makePeakFilter L p.sampleRate 493.88 10 (L.pow 10 (24 / 20))).b0], [1]]
      ∧ (Filter.process L (updateCoefficients L p).leftChain [1]).2
        = [(makePeakFilter L p.sampleRate 493.88 10 (L.pow 10 (24 / 20))).b0]
      ∧ (Filter.process L (updateCoefficients L p).rightChain [1]).2
        = [(makePeakFilter L p.sampleRate 493.88 10 (L.pow 10 (24 / 20))).b0] := by
  have hd := processBlockCall_design_pitched L p h1 h12
  have el : (Filter.process L (updateCoefficients L p).leftChain [1]).2
      = [(makePeakFilter L p.sampleRate 493.88 10 (L.pow 10 (24 / 20))).b0] := by
    rw [Filter.process_singleton L (updateCoefficients L p).leftChain 1 hl, one_mul]
    show [((processBlockCall L p).design L).b0] = _
    rw [hd]
  have er : ∀ x : α, (Filter.process L (updateCoefficients L p).rightChain [x]).2
      = [x * (makePeakFilter L p.sampleRate 493.88 10 (L.pow 10 (24 / 20))).b0] := by
    intro x
    rw [Filter.process_singleton L (updateCoefficients L p).rightChain x hr]
    show [x * ((processBlockCall L p).design L).b0] = _
    rw [hd]
  refine ⟨?_, el, ?_⟩
  · rw [processBlock_stereo L p _ _ hin hout, el, er]
  · rw [er, one_mul]

end Processing

/-! ## Bypass, and the two channels -/

section Blocks

variable {α : Type} [LinearOrderedField α]

/-- C6: with the selection `Bypass`, a positive sample rate, a stereo layout
and both filters freshly reset, `processBlock` designs its coefficients from
gain 1, Q 10 and 20 Hz; their a0 is not 0 and after normalisation b0 = 1,
b1 = a1 and b2 = a2; and every sample of both channels comes back unchanged.
The platform functions are assumed to satisfy 10^0 = 1, sqrt 1 = 1 and
|sin x| ≤ 1. -/
theorem bypass_block_returns_input (L : Libm α) (hpow : L.pow 10 0 = 1)
    (hsqrt : L.sqrt 1 = 1) (hsin : ∀ x, |L.sin x| ≤ 1) (p : BirdcallAudioProcessor α)
    (hnote : p.apvts.Note = Notes.Bypass.toInt) (hsr : 0 < p.sampleRate)
    (hin : p.totalNumInputChannels = 2) (hout : p.totalNumOutputChannels = 2)
    (hl : p.leftChain.prepare = p.leftChain) (hr : p.rightChain.prepare = p.rightChain)
    (ch0 ch1 : List α) :
    processBlockCall L p = ⟨p.sampleRate, 20, 10, 1⟩
      ∧ (makePeakFilterArray L p.sampleRate 20 10 1).2.2.2.1 ≠ 0
      ∧ ((processBlockCall L p).design L).b0 = 1
      ∧ ((processBlockCall L p).design L).b1 = ((processBlockCall L p).design L).a1
      ∧ ((processBlockCall L p).design L).b2 = ((processBlockCall L p).design L).a2
      ∧ (processBlock L p [ch0, ch1]).2 = [ch0, ch1] := by
  have _ := hsr
  have hcall : processBlockCall L p = ⟨p.sampleRate, 20, 10, 1⟩ := by
    simp only [processBlockCall, getChainSettings, hnote, Notes.toInt,
      processBlockResolve_bypass, hpow]
  have hd : (processBlockCall L p).design L = makePeakFilter L p.sampleRate 20 10 1 := by
    rw [hcall]
    rfl
  obtain ⟨ha0, hb0, hb1, hb2⟩ := makePeakFilter_gain_one L hsqrt hsin p.sampleRate 20
  have hl1 : p.leftChain.lv1 = 0 := (congrArg Filter.lv1 hl).symm
  have hl2 : p.leftChain.lv2 = 0 := (congrArg Filter.lv2 hl).symm
  have hr1 : p.rightChain.lv1 = 0 := (congrArg Filter.lv1 hr).symm
  have hr2 : p.rightChain.lv2 = 0 := (congrArg Filter.lv2 hr).symm
  refine ⟨hcall, ha0, ?_, ?_, ?_, ?_⟩
  · rw [hd]
    exact hb0
  · rw [hd]
    exact hb1
  · rw [hd]
    exact hb2
  · rw [processBlock_stereo L p ch0 ch1 hin hout]
    simp only [Filter.process, updateCoefficients, hd, hl1, hl2, hr1, hr2,
      Filter.run_of_unity _ hb0 hb1 hb2]

/-- C6, at the real numbers: a processor prepared at 44100 Hz with the
selection `Bypass` returns the block (1, -1/2 | 3) unchanged. -/
theorem bypass_block_returns_input_witness :
    ((10 : ℝ) ^ (0 : ℝ) = 1) ∧ (Real.sqrt 1 = 1) ∧ (∀ x : ℝ, |Real.sin x| ≤ 1)
      ∧ (processBlock
          (⟨fun x y => x ^ y, Real.sqrt, Real.sin, Real.cos, Real.pi, id⟩ : Libm ℝ)
          (prepareToPlay
            (⟨fun x y => x ^ y, Real.sqrt, Real.sin, Real.cos, Real.pi, id⟩ : Libm ℝ)
            ⟨⟨Notes.Bypass.toInt⟩, 44100, 2, 2, ⟨Coefficients.passThrough, 0, 0⟩,
              ⟨Coefficients.passThrough, 0, 0⟩⟩ 44100 512)
          [[1, -1 / 2], [3]]).2 = [[1, -1 / 2], [3]] :=
  ⟨Real.rpow_zero 10, Real.sqrt_one, Real.abs_sin_le_one,
    (bypass_block_returns_input
      (⟨fun x y => x ^ y, Real.sqrt, Real.sin, Real.cos, Real.pi, id⟩ : Libm ℝ)
      (Real.rpow_zero 10) Real.sqrt_one Real.abs_sin_le_one
      (prepareToPlay
        (⟨fun x y => x ^ y, Real.sqrt, Real.sin, Real.cos, Real.pi, id⟩ : Libm ℝ)
        ⟨⟨Notes.Bypass.toInt⟩, 44100, 2, 2, ⟨Coefficients.passThrough, 0, 0⟩,
          ⟨Coefficients.passThrough, 0, 0⟩⟩ 44100 512)
      rfl (by show (0 : ℝ) < 44100; norm_num) rfl rfl rfl rfl [1, -1 / 2] [3]).2.2.2.2.2⟩

end Blocks

/-- C2 (evaluation of the code): over the real numbers, a processor prepared at
44100 Hz with the note A4 is given the stereo block whose two channels each
hold the one sample 1. With b0 the first coefficient of the set the block
installs, each filter alone turns the sample 1 into b0, and b0 > 1; yet after
`processBlock` channel 0 holds b0 * b0, the left filter followed by the right
filter, and channel 1 still holds 1. -/
theorem right_chain_runs_on_channel_0 :
    (processBlock
        (⟨fun x y => x ^ y, Real.sqrt, Real.sin, Real.cos, Real.pi, id⟩ : Libm ℝ)
        (prepareToPlay
          (⟨fun x y => x ^ y, Real.sqrt, Real.sin, Real.cos, Real.pi, id⟩ : Libm ℝ)
          ⟨⟨Notes.A4.toInt⟩, 44100, 2, 2, ⟨Coefficients.passThrough, 0, 0⟩,
            ⟨Coefficients.passThrough, 0, 0⟩⟩ 44100 512)
        [[1], [1]]).2
      = [[(makePeakFilter
              (⟨fun x y => x ^ y, Real.sqrt, Real.sin, Real.cos, Real.pi, id⟩ : Libm ℝ)
              44100 493.88 10 ((10 : ℝ) ^ ((24 : ℝ) / 20))).b0
            * (makePeakFilter
              (⟨fun x y => x ^ y, Real.sqrt, Real.sin, Real.cos, Real.pi, id⟩ : Libm ℝ)
              44100 493.88 10 ((10 : ℝ) ^ ((24 : ℝ) / 20))).b0], [1]]
    ∧ (Filter.process
        (⟨fun x y => x ^ y, Real.sqrt, Real.sin, Real.cos, Real.pi, id⟩ : Libm ℝ)
        (updateCoefficients
          (⟨fun x y => x ^ y, Real.sqrt, Real.sin, Real.cos, Real.pi, id⟩ : Libm ℝ)
          (prepareToPlay
            (⟨fun x y => x ^ y, Real.sqrt, Real.sin, Real.cos, Real.pi, id⟩ : Libm ℝ)
            ⟨⟨Notes.A4.toInt⟩, 44100, 2, 2, ⟨Coefficients.passThrough, 0, 0⟩,
              ⟨Coefficients.passThrough, 0, 0⟩⟩ 44100 512)).leftChain [1]).2
      = [(makePeakFilter
            (⟨fun x y => x ^ y, Real.sqrt, Real.sin, Real.cos, Real.pi, id⟩ : Libm ℝ)
            44100 493.88 10 ((10 : ℝ) ^ ((24 : ℝ) / 20))).b0]
    ∧ (Filter.process
        (⟨fun x y => x ^ y, Real.sqrt, Real.sin, Real.cos, Real.pi, id⟩ : Libm ℝ)
        (updateCoefficients
          (⟨fun x y => x ^ y, Real.sqrt, Real.sin, Real.cos, Real.pi, id⟩ : Libm ℝ)
          (prepareToPlay
            (⟨fun x y => x ^ y, Real.sqrt, Real.sin, Real.cos, Real.pi, id⟩ : Libm ℝ)
            ⟨⟨Notes.A4.toInt⟩, 44100, 2, 2, ⟨Coefficients.passThrough, 0, 0⟩,
              ⟨Coefficients.passThrough, 0, 0⟩⟩ 44100 512)).rightChain [1]).2
      = [(makePeakFilter
            (⟨fun x y => x ^ y, Real.sqrt, Real.sin, Real.cos, Real.pi, id⟩ : Libm ℝ)
            44100 493.88 10 ((10 : ℝ) ^ ((24 : ℝ) / 20))).b0]
    ∧ 1 < (makePeakFilter
            (⟨fun x y => x ^ y, Real.sqrt, Real.sin, Real.cos, Real.pi, id⟩ : Libm ℝ)
            44100 493.88 10 ((10 : ℝ) ^ ((24 : ℝ) / 20))).b0 := by
  have hgain : (1 : ℝ) < (10 : ℝ) ^ ((24 : ℝ) / 20) :=
    Real.one_lt_rpow (by norm_num) (by norm_num)
  have hsqrt : (1 : ℝ) < Real.sqrt ((10 : ℝ) ^ ((24 : ℝ) / 20)) := by
    rw [Real.lt_sqrt (by norm_num)]
    simpa using hgain
  have hmax : max (493.88 : ℝ) 2 = 493.88 := max_eq_left (by norm_num)
  have hsin : 0 < Real.sin (2 * Real.pi * max (493.88 : ℝ) 2 / 44100) := by
    rw [hmax]
    apply Real.sin_pos_of_pos_of_lt_pi
    · have := Real.pi_pos
      positivity
    · have := Real.pi_pos
      rw [div_lt_iff₀ (by norm_num)]
      nlinarith
  have h := processBlock_unit_block_pitched
    (⟨fun x y => x ^ y, Real.sqrt, Real.sin, Real.cos, Real.pi, id⟩ : Libm ℝ)
    (prepareToPlay
      (⟨fun x y => x ^ y, Real.sqrt, Real.sin, Real.cos, Real.pi, id⟩ : Libm ℝ)
      ⟨⟨Notes.A4.toInt⟩, 44100, 2, 2, ⟨Coefficients.passThrough, 0, 0⟩,
        ⟨Coefficients.passThrough, 0, 0⟩⟩ 44100 512)
    (by decide) (by decide) rfl rfl rfl rfl
  exact ⟨h.1, h.2.1, h.2.2,
    makePeakFilter_b0_gt_one _ 44100 493.88 10 _ hsqrt (by norm_num) hsin⟩

end Birdcall
